import Mathlib

/-!
Verification development for the ai-travel-planner repository.

The definitions below are a shallow embedding of the Python source:
`src/services/flight_service.py`, `src/utils/formatters.py` and
`src/utils/validators.py`.  Python runtime values occurring in the flight
pipeline (JSON-like data) are modelled by the inductive type `PyVal`;
Python numbers (int and float alike) are modelled by `ℚ`; a raised Python
exception is modelled by `Except Unit`; a `try/except` boundary catches the
error and returns the fallback value, exactly as in the source.
-/

set_option maxRecDepth 8000

/-- Strip leading and trailing whitespace from a character list
(Python `str.strip()`; the handful of further Unicode space characters
Python also strips do not occur in any modelled input). -/
def stripChars (l : List Char) : List Char :=
  ((l.dropWhile Char.isWhitespace).reverse.dropWhile Char.isWhitespace).reverse

/-- Lexicographic code-point comparison of character lists: Python string
`<` (identical to Lean's `String` order, written out so it evaluates). -/
def charListLt : List Char → List Char → Bool
  | [], [] => false
  | [], _ :: _ => true
  | _ :: _, [] => false
  | x :: xs, y :: ys =>
    if x.toNat < y.toNat then true
    else if y.toNat < x.toNat then false
    else charListLt xs ys

/-- Model of the Python/JSON values flowing through the flight pipeline.
Python `bool` does not occur in any provider payload handled by the code and
is not modelled.  `dict` is a key-value list; the Python dictionaries that
occur here come from parsed JSON and have distinct keys, looked up by first
match. -/
inductive PyVal where
  | none : PyVal
  | num : ℚ → PyVal
  | str : String → PyVal
  | list : List PyVal → PyVal
  | dict : List (String × PyVal) → PyVal

mutual
/-- Decidable structural equality on `PyVal` (hand-written: the derive
handler does not support this nested inductive). -/
def decEqPyVal : (a b : PyVal) → Decidable (a = b)
  | .none, .none => .isTrue rfl
  | .num a, .num b =>
    match decEq a b with
    | .isTrue h => .isTrue (by rw [h])
    | .isFalse h => .isFalse (fun hc => h (by cases hc; rfl))
  | .str a, .str b =>
    match decEq a b with
    | .isTrue h => .isTrue (by rw [h])
    | .isFalse h => .isFalse (fun hc => h (by cases hc; rfl))
  | .list a, .list b =>
    match decEqPyValList a b with
    | .isTrue h => .isTrue (by rw [h])
    | .isFalse h => .isFalse (fun hc => h (by cases hc; rfl))
  | .dict a, .dict b =>
    match decEqPyValEntries a b with
    | .isTrue h => .isTrue (by rw [h])
    | .isFalse h => .isFalse (fun hc => h (by cases hc; rfl))
  | .none, .num _ | .none, .str _ | .none, .list _ | .none, .dict _
  | .num _, .none | .num _, .str _ | .num _, .list _ | .num _, .dict _
  | .str _, .none | .str _, .num _ | .str _, .list _ | .str _, .dict _
  | .list _, .none | .list _, .num _ | .list _, .str _ | .list _, .dict _
  | .dict _, .none | .dict _, .num _ | .dict _, .str _ | .dict _, .list _ =>
    .isFalse (fun h => nomatch h)

def decEqPyValList : (a b : List PyVal) → Decidable (a = b)
  | [], [] => .isTrue rfl
  | [], _ :: _ => .isFalse (fun h => nomatch h)
  | _ :: _, [] => .isFalse (fun h => nomatch h)
  | x :: xs, y :: ys =>
    match decEqPyVal x y, decEqPyValList xs ys with
    | .isTrue h1, .isTrue h2 => .isTrue (by rw [h1, h2])
    | .isFalse h1, _ => .isFalse (fun hc => h1 (by cases hc; rfl))
    | _, .isFalse h2 => .isFalse (fun hc => h2 (by cases hc; rfl))

def decEqPyValEntries : (a b : List (String × PyVal)) → Decidable (a = b)
  | [], [] => .isTrue rfl
  | [], _ :: _ => .isFalse (fun h => nomatch h)
  | _ :: _, [] => .isFalse (fun h => nomatch h)
  | (k1, v1) :: xs, (k2, v2) :: ys =>
    match decEq k1 k2, decEqPyVal v1 v2, decEqPyValEntries xs ys with
    | .isTrue h1, .isTrue h2, .isTrue h3 => .isTrue (by rw [h1, h2, h3])
    | .isFalse h1, _, _ => .isFalse (fun hc => h1 (by cases hc; rfl))
    | _, .isFalse h2, _ => .isFalse (fun hc => h2 (by cases hc; rfl))
    | _, _, .isFalse h3 => .isFalse (fun hc => h3 (by cases hc; rfl))
end

instance : DecidableEq PyVal := decEqPyVal

/-- Python truthiness (`bool(v)`) restricted to the modelled values:
`None`, `0`, `""`, `[]` and an empty dict are falsy. -/
def pyFalsy : PyVal → Bool
  | .none => true
  | .num q => q == 0
  | .str s => s == ""
  | .list l => l.isEmpty
  | .dict es => es.isEmpty

def pyTruthy (v : PyVal) : Bool := !(pyFalsy v)

/-- Python `v.get(k, default)`: defined for dictionaries, an
`AttributeError` (modelled by `.error`) for every other value. -/
def pyGetAttr (v : PyVal) (k : String) (default : PyVal) : Except Unit PyVal :=
  match v with
  | .dict es => .ok ((es.lookup k).getD default)
  | _ => .error ()

/-- Python `len(v)`: defined for lists, strings and dicts, a `TypeError`
otherwise. -/
def pyLen : PyVal → Except Unit Nat
  | .list l => .ok l.length
  | .str s => .ok s.length
  | .dict es => .ok es.length
  | _ => .error ()

/-- Python `v[0]`: head of a list, one-character string of a string;
`IndexError`/`TypeError`/`KeyError` otherwise. -/
def pyIndexFirst : PyVal → Except Unit PyVal
  | .list (x :: _) => .ok x
  | .str s =>
    match s.toList with
    | c :: _ => .ok (.str (String.mk [c]))
    | [] => .error ()
  | _ => .error ()

/-- Python `v[-1]`: last element of a list, one-character string of a
string; an exception otherwise. -/
def pyIndexLast : PyVal → Except Unit PyVal
  | .list l =>
    match l.getLast? with
    | some x => .ok x
    | Option.none => .error ()
  | .str s =>
    match s.toList.getLast? with
    | some c => .ok (.str (String.mk [c]))
    | Option.none => .error ()
  | _ => .error ()

/-- Exception-propagating bind for the embedded Python computations. -/
def bindE {α β : Type} (x : Except Unit α) (f : α → Except Unit β) : Except Unit β :=
  match x with
  | .ok a => f a
  | .error e => .error e

@[simp] theorem bindE_ok {α β : Type} (a : α) (f : α → Except Unit β) :
    bindE (.ok a) f = f a := rfl

@[simp] theorem bindE_error {α β : Type} (e : Unit) (f : α → Except Unit β) :
    bindE (.error e) f = .error e := rfl

/-- Monadic `List.mapM` over the exception monad, evaluated left to right
(CPython computes all sort keys left to right before sorting). -/
def mapME {α β : Type} (f : α → Except Unit β) : List α → Except Unit (List β)
  | [] => .ok []
  | x :: xs => bindE (f x) (fun y => bindE (mapME f xs) (fun ys => .ok (y :: ys)))

/-- Python `==` between the modelled values never raises; it is structural
equality here (numbers compare by value: int and float collapse into `ℚ`;
the dicts compared by the code come from JSON in a fixed entry order). -/
def pyEqB (a b : PyVal) : Bool := a == b

mutual
/-- Python `a < b` for the modelled values: numbers by value, strings
lexicographically by code point, lists lexicographically; every other
combination (including any cross-type comparison) raises `TypeError`. -/
def pyLt : PyVal → PyVal → Except Unit Bool
  | .num a, .num b => .ok (decide (a < b))
  | .str a, .str b => .ok (charListLt a.toList b.toList)
  | .list a, .list b => pyLtList a b
  | _, _ => .error ()

/-- Python list `<`: skip equal prefixes, compare the first differing
elements, shorter list first on exhaustion. -/
def pyLtList : List PyVal → List PyVal → Except Unit Bool
  | [], [] => .ok false
  | [], _ :: _ => .ok true
  | _ :: _, [] => .ok false
  | x :: xs, y :: ys => if x = y then pyLtList xs ys else pyLt x y
end

/-- The sort key produced by `lambda x: x.get("price", float("inf"))` in
`FlightService.extract_best_flights`: either the present `price` value or
`float("inf")` when the key is absent. -/
inductive SortKey where
  | inf : SortKey
  | val : PyVal → SortKey
deriving DecidableEq

/-- Python `<` on sort keys.  `float("inf")` compares with numbers in the
usual way and raises `TypeError` against any non-numeric value. -/
def pyLtKey : SortKey → SortKey → Except Unit Bool
  | .inf, .inf => .ok false
  | .inf, .val (.num _) => .ok false
  | .val (.num _), .inf => .ok true
  | .inf, .val _ => .error ()
  | .val _, .inf => .error ()
  | .val a, .val b => pyLt a b

/-- Key extraction for one offer: `x.get("price", float("inf"))`.
A non-dict offer raises `AttributeError`. -/
def keyOf (x : PyVal) : Except Unit SortKey :=
  match x with
  | .dict es =>
    match es.lookup "price" with
    | some v => .ok (.val v)
    | Option.none => .ok .inf
  | _ => .error ()

/-- Stable insertion of a keyed offer into an already sorted keyed list,
comparing only the keys with Python `<` and propagating a raised
comparison.  `a` is placed before the first `b` with `¬(key b < key a)`,
which is exactly the placement of a stable ascending sort. -/
def insertM (a : SortKey × PyVal) : List (SortKey × PyVal) → Except Unit (List (SortKey × PyVal))
  | [] => .ok [a]
  | b :: bs =>
    bindE (pyLtKey b.1 a.1) (fun c =>
      if c then bindE (insertM a bs) (fun r => .ok (b :: r))
      else .ok (a :: b :: bs))

/-- Stable sort of the keyed offers; any raised key comparison propagates,
as `sorted` lets a `TypeError` from the key comparison escape. -/
def sortM : List (SortKey × PyVal) → Except Unit (List (SortKey × PyVal))
  | [] => .ok []
  | x :: xs => bindE (sortM xs) (fun s => insertM x s)

/-- `sorted(offers, key=lambda x: x.get("price", float("inf")))`:
all keys are computed first (left to right), then the list is sorted
ascending by key with a stable sort. -/
def sortOffers (offers : List PyVal) : Except Unit (List PyVal) :=
  bindE (mapME (fun o => bindE (keyOf o) (fun k => .ok (k, o))) offers) (fun keyed =>
  bindE (sortM keyed) (fun sorted =>
  .ok (sorted.map (fun p => p.2))))

/-- Body of `FlightService.extract_best_flights` before its `try/except`:
read `best_flights` (default `[]`), return `[]` when falsy, otherwise sort
by price and keep the first `limit`.  Sorting a truthy non-list value
always raises in Python (non-iterable, or its elements have no `.get`),
modelled by `.error`. -/
def extract_core (flight_data : PyVal) (limit : Nat) : Except Unit (List PyVal) :=
  bindE (pyGetAttr flight_data "best_flights" (.list [])) (fun best =>
    if pyFalsy best then .ok []
    else
      match best with
      | .list offers =>
        bindE (sortOffers offers) (fun sorted => .ok (sorted.take limit))
      | _ => .error ())

/-- `FlightService.extract_best_flights`: the `try/except` boundary turns
any raised error into `[]`. -/
def extract_best_flights (flight_data : PyVal) (limit : Nat) : List PyVal :=
  match extract_core flight_data limit with
  | .ok l => l
  | .error _ => []

/-- Outcome of one call to the external search provider
(`GoogleSearch(params).get_dict()`): either a raised transport/provider
exception or a returned value.  The returned value is left arbitrary so
that every malformed response is covered. -/
inductive ProviderResponse where
  | failure : ProviderResponse
  | success : PyVal → ProviderResponse

/-- `FlightService.search_flights`: the whole body is inside `try/except`;
a raised provider error is caught and `{}` returned. -/
def search_flights (resp : ProviderResponse) : PyVal :=
  match resp with
  | .failure => .dict []
  | .success v => v

/-- Body of `FlightService.get_flight_details` before its `try/except`,
with every field read in source order.  The result is the entry list of the
details dictionary. -/
def get_flight_details_core (flight : PyVal) : Except Unit (List (String × PyVal)) :=
  bindE (pyGetAttr flight "flights" (.list [.dict []])) (fun fl =>
  bindE (if pyFalsy fl then .ok (PyVal.dict []) else pyIndexFirst fl) (fun first_flight =>
  bindE (if pyFalsy fl then .ok (PyVal.dict []) else pyIndexLast fl) (fun last_flight =>
  bindE (pyGetAttr first_flight "departure_airport" (.dict [])) (fun departure_airport =>
  bindE (pyGetAttr last_flight "arrival_airport" (.dict [])) (fun arrival_airport =>
  bindE (pyGetAttr first_flight "airline" (.str "Unknown Airline")) (fun airline =>
  bindE (pyGetAttr flight "airline_logo" (.str "")) (fun airline_logo =>
  bindE (pyGetAttr flight "price" (.str "Not Available")) (fun price =>
  bindE (pyGetAttr flight "total_duration" (.str "N/A")) (fun total_duration =>
  bindE (pyGetAttr departure_airport "time" (.str "N/A")) (fun departure_time =>
  bindE (pyGetAttr departure_airport "id" (.str "N/A")) (fun departure_airport_id =>
  bindE (pyGetAttr departure_airport "name" (.str "N/A")) (fun departure_airport_name =>
  bindE (pyGetAttr arrival_airport "time" (.str "N/A")) (fun arrival_time =>
  bindE (pyGetAttr arrival_airport "id" (.str "N/A")) (fun arrival_airport_id =>
  bindE (pyGetAttr arrival_airport "name" (.str "N/A")) (fun arrival_airport_name =>
  bindE (pyLen fl) (fun n =>
  bindE (pyGetAttr flight "departure_token" (.str "")) (fun departure_token =>
  bindE (pyGetAttr flight "booking_token" (.str "")) (fun booking_token =>
  .ok [("airline", airline),
       ("airline_logo", airline_logo),
       ("price", price),
       ("total_duration", total_duration),
       ("departure_time", departure_time),
       ("departure_airport", departure_airport_id),
       ("departure_airport_name", departure_airport_name),
       ("arrival_time", arrival_time),
       ("arrival_airport", arrival_airport_id),
       ("arrival_airport_name", arrival_airport_name),
       ("layovers", .num (if n > 1 then mkRat ((n : Int) - 1) 1 else 0)),
       ("departure_token", departure_token),
       ("booking_token", booking_token)]))))))))))))))))))

/-- `FlightService.get_flight_details`: the `try/except` boundary returns
`{}` on any raised error. -/
def get_flight_details (flight : PyVal) : PyVal :=
  match get_flight_details_core flight with
  | .ok es => .dict es
  | .error _ => .dict []

/-- `FlightService.search_and_extract`: search, extract the best flights,
project each to details and keep only the truthy (non-`{}`) projections. -/
def search_and_extract (resp : ProviderResponse) (limit : Nat) : List PyVal :=
  (extract_best_flights (search_flights resp) limit).filterMap (fun f =>
    let d := get_flight_details f
    if pyTruthy d then some d else Option.none)

/-- Python `str.upper()` (character-wise uppercasing; the inputs here are
airport codes). -/
def pyUpper (s : String) : String := String.mk (s.toList.map Char.toUpper)

/-- Parameter dictionary of the follow-up query in
`FlightService.get_booking_link`: the same trip parameters as the initial
search plus the continuation token. -/
def bookingParams (api_key source destination departure_date return_date : String)
    (departure_token : PyVal) : List (String × PyVal) :=
  [("engine", .str "google_flights"),
   ("departure_id", .str (pyUpper source)),
   ("arrival_id", .str (pyUpper destination)),
   ("outbound_date", .str departure_date),
   ("return_date", .str return_date),
   ("currency", .str "INR"),
   ("hl", .str "en"),
   ("api_key", .str api_key),
   ("departure_token", departure_token)]

/-- Rendering of a modelled number by Python `str`/`repr`.  Integral values
(the only numeric values reaching a rendered string in the claims) print
exactly as in Python; a non-integral value abstracts Python float printing
by numerator-slash-denominator. -/
def ratStr (q : ℚ) : String :=
  if q.den = 1 then toString q.num else toString q.num ++ "/" ++ toString q.den

mutual
/-- Python `repr` of a modelled value (string escaping inside quotes is not
reproduced; no claim exercises it). -/
def pyRepr : PyVal → String
  | .none => "None"
  | .num q => ratStr q
  | .str s => "\x27" ++ s ++ "\x27"
  | .list l => "[" ++ String.intercalate ", " (pyReprList l) ++ "]"
  | .dict es => "\x7b" ++ String.intercalate ", " (pyReprEntries es) ++ "\x7d"

def pyReprList : List PyVal → List String
  | [] => []
  | x :: xs => pyRepr x :: pyReprList xs

def pyReprEntries : List (String × PyVal) → List String
  | [] => []
  | (k, v) :: xs => ("\x27" ++ k ++ "\x27: " ++ pyRepr v) :: pyReprEntries xs
end

/-- Python `str(v)` (also the behaviour of an f-string interpolation):
identity on strings, `repr` on the other modelled values. -/
def pyStr : PyVal → String
  | .str s => s
  | v => pyRepr v

/-- Body of `FlightService.get_booking_link` before its `try/except`.  The
external follow-up call is modelled by the `provider` function from the
parameter dictionary it receives to its outcome. -/
def get_booking_link_core (provider : List (String × PyVal) → ProviderResponse)
    (api_key : String) (flight : PyVal)
    (source destination departure_date return_date : String) : Except Unit String :=
  bindE (pyGetAttr flight "departure_token" (.str "")) (fun departure_token =>
  if pyFalsy departure_token then .ok "#"
  else
    match provider (bookingParams api_key source destination departure_date
        return_date departure_token) with
    | .failure => .error ()
    | .success results =>
      bindE (pyGetAttr results "best_flights" (.list [])) (fun best_flights =>
      if pyFalsy best_flights then .ok "#"
      else
        bindE (pyLen best_flights) (fun n =>
        if n = 0 then .ok "#"
        else
          bindE (pyIndexFirst best_flights) (fun first =>
          bindE (pyGetAttr first "booking_token" (.str "")) (fun booking_token =>
          if pyFalsy booking_token then .ok "#"
          else .ok ("https://www.google.com/travel/flights?tfs=" ++ pyStr booking_token))))))

/-- `FlightService.get_booking_link`: the `try/except` boundary returns the
placeholder on any raised error. -/
def get_booking_link (provider : List (String × PyVal) → ProviderResponse)
    (api_key : String) (flight : PyVal)
    (source destination departure_date return_date : String) : String :=
  match get_booking_link_core provider api_key flight source destination
      departure_date return_date with
  | .ok s => s
  | .error _ => "#"

/-- Value of a decimal digit character, `Option.none` otherwise. -/
def digitVal (c : Char) : Option Nat :=
  if c.isDigit then some (c.toNat - 48) else Option.none

/-- Value of a nonempty all-digit character list, most significant first. -/
def digitsValAux : List Char → Nat → Option Nat
  | [], acc => some acc
  | c :: cs, acc =>
    match digitVal c with
    | some d => digitsValAux cs (acc * 10 + d)
    | Option.none => Option.none

def digitsVal (cs : List Char) : Option Nat :=
  match cs with
  | [] => Option.none
  | _ => digitsValAux cs 0

/-- Python `int(s)` on a string: surrounding whitespace stripped, optional
sign, then decimal digits.  (Digit-separating underscores and non-ASCII
digits, which Python also accepts, are not modelled; no claim uses them.)
Failure models `ValueError`. -/
def parseIntStr (s : String) : Except Unit Int :=
  match stripChars s.toList with
  | [] => .error ()
  | c :: rest =>
    if c = '+' then
      match digitsVal rest with
      | some n => .ok (n : Int)
      | Option.none => .error ()
    else if c = '-' then
      match digitsVal rest with
      | some n => .ok (-(n : Int))
      | Option.none => .error ()
    else
      match digitsVal (c :: rest) with
      | some n => .ok (n : Int)
      | Option.none => .error ()

/-- Truncation toward zero, the behaviour of Python `int()` on a float
(`Int.tdiv` of the reduced numerator by the denominator truncates toward
zero). -/
def ratTrunc (q : ℚ) : Int :=
  Int.tdiv q.num (q.den : Int)

/-- Python `int(v)`: floats truncate toward zero, strings parse as decimal
integers, every other modelled value raises (`TypeError`, caught together
with `ValueError` at the call sites). -/
def pyToInt (v : PyVal) : Except Unit Int :=
  match v with
  | .num q => .ok (ratTrunc q)
  | .str s => parseIntStr s
  | _ => .error ()

/-- `format_duration` from `src/utils/formatters.py`.  Falsy input (note:
this includes the number 0) and the sentinel "N/A" yield "N/A"; otherwise
the value is converted with `int()` and rendered as hours/minutes with
Python floor division and modulo; if the conversion raises, the stringified
raw value is returned. -/
def format_duration (minutes : PyVal) : String :=
  if pyFalsy minutes || minutes == PyVal.str "N/A" then "N/A"
  else
    match pyToInt minutes with
    | .error _ => pyStr minutes
    | .ok m =>
      let hours : Int := Int.fdiv m 60
      let mins : Int := Int.fmod m 60
      if hours > 0 && mins > 0 then toString hours ++ "h " ++ toString mins ++ "m"
      else if hours > 0 then toString hours ++ "h"
      else toString mins ++ "m"

/-- Python `float(s)` on a string: surrounding whitespace stripped,
optional sign, then digits with an optional fractional part (at least one
digit overall).  (Exponent notation and inf/nan literals, which Python also
accepts, are not modelled; no claim uses them.) -/
def parseFloatStr (s : String) : Except Unit ℚ :=
  let t := stripChars s.toList
  let signed : Int × List Char :=
    match t with
    | '+' :: rest => (1, rest)
    | '-' :: rest => (-1, rest)
    | l => (1, l)
  let ipart := signed.2.takeWhile Char.isDigit
  let rest1 := signed.2.dropWhile Char.isDigit
  match rest1 with
  | [] =>
    match digitsVal ipart with
    | some n => .ok (mkRat (signed.1 * (n : Int)) 1)
    | Option.none => .error ()
  | '.' :: rest2 =>
    let fpart := rest2.takeWhile Char.isDigit
    let rest3 := rest2.dropWhile Char.isDigit
    if rest3 = [] ∧ (ipart ≠ [] ∨ fpart ≠ []) then
      let iv := (digitsValAux ipart 0).getD 0
      let fv := (digitsValAux fpart 0).getD 0
      .ok (mkRat (signed.1 * ((iv * 10 ^ fpart.length + fv : Nat) : Int)) (10 ^ fpart.length))
    else .error ()
  | _ => .error ()

/-- Python `float(v)` on the modelled values. -/
def pyFloat (v : PyVal) : Except Unit ℚ :=
  match v with
  | .num q => .ok q
  | .str s => parseFloatStr s
  | _ => .error ()

/-- Rounding to an integer with ties to even, the rounding used by the
Python format specification `.0f` (written with integer arithmetic on the
reduced fraction: `t` is `2 * den * (q - floor q)`, compared with `den`). -/
def roundHalfEven (q : ℚ) : Int :=
  let f := q.floor
  let t : Int := 2 * (q.num - f * (q.den : Int))
  if t < (q.den : Int) then f
  else if (q.den : Int) < t then f + 1
  else if f % 2 = 0 then f else f + 1

/-- Insert a comma after every third digit of a reversed digit list while
digits remain, as the format specification's thousands separator does. -/
def groupRevAux : List Char → Nat → List Char
  | [], _ => []
  | c :: rest, i =>
    c :: (if (i + 1) % 3 = 0 && !rest.isEmpty then ',' :: groupRevAux rest (i + 1)
          else groupRevAux rest (i + 1))

/-- Python `f"{x:,.0f}"`: round half-to-even to an integer and group the
digits in threes with commas. -/
def formatThousands (n : Int) : String :=
  (if n < 0 then "-" else "") ++
    String.mk ((groupRevAux (toString n.natAbs).toList.reverse 0).reverse)

/-- `format_price` from `src/utils/formatters.py`.  Falsy input (including
the number 0) and the sentinel yield "Not Available"; a string input first
has rupee signs and commas removed and is stripped; then `float()` is
applied and the result rendered with the rupee sign and thousands grouping;
if the conversion raises, the stringified (already stripped) value is
returned. -/
def format_price (price : PyVal) : String :=
  if pyFalsy price || price == PyVal.str "Not Available" then "Not Available"
  else
    let price' : PyVal :=
      match price with
      | .str s => .str (String.mk (stripChars
          ((s.toList.filter (fun c => !(c == '₹'))).filter (fun c => !(c == ',')))))
      | v => v
    match pyFloat price' with
    | .ok q => "₹" ++ formatThousands (roundHalfEven q)
    | .error _ => pyStr price'

/-- `format_airport_code` from `src/utils/formatters.py`. -/
def format_airport_code (code : String) (name : Option String) : String :=
  if code = "" then "Unknown"
  else
    match name with
    | some nm => if nm = "" then code else code ++ " (" ++ nm ++ ")"
    | Option.none => code

/-- Python `text[:k]` with a possibly negative bound: a negative bound
counts from the end of the string, clamped at zero. -/
def pyTakePrefix (s : String) (k : Int) : String :=
  if 0 ≤ k then String.mk (s.toList.take k.toNat)
  else String.mk (s.toList.take (s.length - (-k).toNat))

/-- `truncate_text` from `src/utils/formatters.py`.  `max_length` is kept
an integer, since Python slicing gives the `max_length < 3` case a
counting-from-the-end meaning. -/
def truncate_text (text : String) (max_length : Int) : String :=
  if text = "" then ""
  else if (text.length : Int) ≤ max_length then text
  else pyTakePrefix text (max_length - 3) ++ "..."

/-- `validate_dates` from `src/utils/validators.py`.  Dates are modelled as
epoch-day numbers, so date comparison and day-span subtraction are integer
comparison and subtraction; the wall clock `date.today()` is passed as the
`today` parameter. -/
def validate_dates (today departure_date return_date : Int) : Bool × Option String :=
  if departure_date < today then
    (false, some "Departure date cannot be in the past")
  else if return_date < departure_date then
    (false, some "Return date must be after departure date")
  else if return_date - departure_date < 1 then
    (false, some "Trip must be at least 1 day long")
  else if departure_date - today > 365 then
    (false, some "Cannot book flights more than 1 year in advance")
  else (true, Option.none)

/-- Numeric value of a digit character (callers guard with `isDigit`). -/
def dval (c : Char) : Nat := c.toNat - 48

/-- A two-digit-or-one-digit numeric directive of CPython's `_strptime`
regexes (for example `%m` is `1[0-2]|0[1-9]|[1-9]`): the two-digit reading
is preferred when two digits are available and their value is admissible,
else the one-digit reading when admissible.  In the five formats used every
directive is followed by a non-digit literal or the end of the string, so
this matches the regex with backtracking. -/
def parse2or1 (ok2 ok1 : Nat → Bool) : List Char → Option (Nat × List Char)
  | c1 :: c2 :: rest =>
    if c1.isDigit && c2.isDigit then
      let v := dval c1 * 10 + dval c2
      if ok2 v then some (v, rest)
      else if ok1 (dval c1) then some (dval c1, c2 :: rest)
      else Option.none
    else if c1.isDigit && ok1 (dval c1) then some (dval c1, c2 :: rest)
    else Option.none
  | [c1] => if c1.isDigit && ok1 (dval c1) then some (dval c1, []) else Option.none
  | [] => Option.none

/-- `%Y`: exactly four digits. -/
def parseYear4 : List Char → Option (Nat × List Char)
  | a :: b :: c :: d :: rest =>
    if a.isDigit && b.isDigit && c.isDigit && d.isDigit then
      some (((dval a * 10 + dval b) * 10 + dval c) * 10 + dval d, rest)
    else Option.none
  | _ => Option.none

/-- `%f`: one to six fractional-second digits, greedy (if more than six
digits follow, the seventh onward is left in the remainder, where the
following literal fails exactly as the regex does). -/
def parseFrac (l : List Char) : Option (List Char) :=
  let ds := l.takeWhile Char.isDigit
  let rest := l.dropWhile Char.isDigit
  if ds.isEmpty then Option.none else some (ds.drop 6 ++ rest)

/-- Exactly two digits. -/
def parseTwoDigits : List Char → Option (Nat × List Char)
  | a :: b :: rest =>
    if a.isDigit && b.isDigit then some (dval a * 10 + dval b, rest) else Option.none
  | _ => Option.none

/-- The signed body of `%z`: `\d\d:?\d\d(:?\d\d(\.\d{1,6})?)?`, with the
offset required to be strictly below 24 hours (Python builds a `timezone`
from the parsed `timedelta` and rejects anything not strictly between
-24h and 24h). -/
def parseTzBody (l : List Char) : Option (List Char) :=
  match parseTwoDigits l with
  | some (h, r1) =>
    let r1' := match r1 with | ':' :: t => t | _ => r1
    match parseTwoDigits r1' with
    | some (m, r2) =>
      let r2' := match r2 with | ':' :: t => t | _ => r2
      let smp : Nat × Nat × List Char :=
        match parseTwoDigits r2' with
        | some (s, r3) =>
          match r3 with
          | '.' :: r4 =>
            let ds := r4.takeWhile Char.isDigit
            let rest4 := r4.dropWhile Char.isDigit
            if ds.isEmpty then (s, 0, r3)
            else
              ((s, ((digitsValAux (ds.take 6) 0).getD 0) * 10 ^ (6 - min 6 ds.length),
                ds.drop 6 ++ rest4) : Nat × Nat × List Char)
          | _ => (s, 0, r3)
        | Option.none => (0, 0, r2)
      let total : Nat := (h * 3600 + m * 60 + smp.1) * 1000000 + smp.2.1
      if total < 86400000000 then some smp.2.2 else Option.none
    | Option.none => Option.none
  | Option.none => Option.none

/-- `%z` (Python 3.7+): a numeric UTC offset or the literal `Z`. -/
def parseTz : List Char → Option (List Char)
  | 'Z' :: rest => some rest
  | c :: rest => if c = '+' || c = '-' then parseTzBody rest else Option.none
  | [] => Option.none

/-- One token of a `strptime` format string: a literal character or one of
the directives appearing in `format_datetime`'s format list. -/
inductive FmtTok where
  | lit : Char → FmtTok
  | year : FmtTok
  | month : FmtTok
  | day : FmtTok
  | hour : FmtTok
  | minute : FmtTok
  | second : FmtTok
  | frac : FmtTok
  | tzoff : FmtTok

/-- The fields of a parsed datetime, with `strptime`'s defaults for fields
a format does not set. -/
structure PyDateTime where
  year : Nat := 1900
  month : Nat := 1
  day : Nat := 1
  hour : Nat := 0
  minute : Nat := 0
  second : Nat := 0
deriving DecidableEq

/-- Run a format over the input, consuming the whole string
(`_strptime` rejects unconverted trailing data). -/
def runFmt : List FmtTok → List Char → PyDateTime → Option PyDateTime
  | [], [], st => some st
  | [], _ :: _, _ => Option.none
  | .lit c :: rest, l, st =>
    match l with
    | x :: xs => if x = c then runFmt rest xs st else Option.none
    | [] => Option.none
  | .year :: rest, l, st =>
    match parseYear4 l with
    | some (y, xs) => runFmt rest xs { st with year := y }
    | Option.none => Option.none
  | .month :: rest, l, st =>
    match parse2or1 (fun v => decide (1 ≤ v) && decide (v ≤ 12)) (fun v => decide (1 ≤ v)) l with
    | some (v, xs) => runFmt rest xs { st with month := v }
    | Option.none => Option.none
  | .day :: rest, l, st =>
    match parse2or1 (fun v => decide (1 ≤ v) && decide (v ≤ 31)) (fun v => decide (1 ≤ v)) l with
    | some (v, xs) => runFmt rest xs { st with day := v }
    | Option.none => Option.none
  | .hour :: rest, l, st =>
    match parse2or1 (fun v => decide (v ≤ 23)) (fun _ => true) l with
    | some (v, xs) => runFmt rest xs { st with hour := v }
    | Option.none => Option.none
  | .minute :: rest, l, st =>
    match parse2or1 (fun v => decide (v ≤ 59)) (fun _ => true) l with
    | some (v, xs) => runFmt rest xs { st with minute := v }
    | Option.none => Option.none
  | .second :: rest, l, st =>
    match parse2or1 (fun v => decide (v ≤ 61)) (fun _ => true) l with
    | some (v, xs) => runFmt rest xs { st with second := v }
    | Option.none => Option.none
  | .frac :: rest, l, st =>
    match parseFrac l with
    | some xs => runFmt rest xs st
    | Option.none => Option.none
  | .tzoff :: rest, l, st =>
    match parseTz l with
    | some xs => runFmt rest xs st
    | Option.none => Option.none

def isLeapYear (y : Nat) : Bool := y % 4 == 0 && (y % 100 != 0 || y % 400 == 0)

def daysInMonth (y m : Nat) : Nat :=
  if m = 2 then (if isLeapYear y then 29 else 28)
  else if m = 4 ∨ m = 6 ∨ m = 9 ∨ m = 11 then 30
  else 31

/-- The constraints `datetime(...)` adds beyond the directive regexes:
year at least `MINYEAR`, a day that exists in the month, seconds below 60
(the regex alone admits the leap seconds 60 and 61). -/
def validDateTime (dt : PyDateTime) : Bool :=
  decide (1 ≤ dt.year) && decide (1 ≤ dt.day) &&
    decide (dt.day ≤ daysInMonth dt.year dt.month) && decide (dt.second ≤ 59)

/-- `datetime.strptime(s, fmt)` for the formats used here: `ValueError`
is modelled by `Option.none`. -/
def strptimeModel (fmt : List FmtTok) (s : String) : Option PyDateTime :=
  match runFmt fmt s.toList {} with
  | some dt => if validDateTime dt then some dt else Option.none
  | Option.none => Option.none

def fmtYmdHM : List FmtTok :=
  [.year, .lit '-', .month, .lit '-', .day, .lit ' ', .hour, .lit ':', .minute]

def fmtYmdTHMS : List FmtTok :=
  [.year, .lit '-', .month, .lit '-', .day, .lit 'T', .hour, .lit ':', .minute, .lit ':', .second]

def fmtYmdHMS : List FmtTok :=
  [.year, .lit '-', .month, .lit '-', .day, .lit ' ', .hour, .lit ':', .minute, .lit ':', .second]

def fmtYmdTHMSfZ : List FmtTok :=
  [.year, .lit '-', .month, .lit '-', .day, .lit 'T', .hour, .lit ':', .minute, .lit ':', .second,
   .lit '.', .frac, .lit 'Z']

def fmtYmdTHMSz : List FmtTok :=
  [.year, .lit '-', .month, .lit '-', .day, .lit 'T', .hour, .lit ':', .minute, .lit ':', .second,
   .tzoff]

/-- The fixed, ordered format list of `format_datetime`. -/
def datetimeFormats : List (List FmtTok) :=
  [fmtYmdHM, fmtYmdTHMS, fmtYmdHMS, fmtYmdTHMSfZ, fmtYmdTHMSz]

def monthAbbrev : Nat → String
  | 1 => "Jan" | 2 => "Feb" | 3 => "Mar" | 4 => "Apr" | 5 => "May" | 6 => "Jun"
  | 7 => "Jul" | 8 => "Aug" | 9 => "Sep" | 10 => "Oct" | 11 => "Nov" | 12 => "Dec"
  | _ => ""

def pad2 (n : Nat) : String := if n < 10 then "0" ++ toString n else toString n

/-- `dt.strftime("%b-%d, %Y | %I:%M %p")`: note that `%I` (like `%d` and
`%M`) is zero-padded to two digits by `strftime`. -/
def strftimeOutput (dt : PyDateTime) : String :=
  let h12 := if dt.hour % 12 = 0 then 12 else dt.hour % 12
  monthAbbrev dt.month ++ "-" ++ pad2 dt.day ++ ", " ++ toString dt.year ++ " | " ++
    pad2 h12 ++ ":" ++ pad2 dt.minute ++ " " ++ (if dt.hour < 12 then "AM" else "PM")

/-- `format_datetime` from `src/utils/formatters.py`: falsy or "N/A" input
returns "N/A"; the formats are tried in their fixed order and the first
parse wins; if none parses the original string is returned; a non-string
truthy input makes `strptime` raise `TypeError`, caught by the outer
handler returning "N/A". -/
def format_datetime (iso_string : PyVal) : String :=
  if pyFalsy iso_string || iso_string == PyVal.str "N/A" then "N/A"
  else
    match iso_string with
    | .str s =>
      match datetimeFormats.findSome? (fun fmt => strptimeModel fmt s) with
      | some dt => strftimeOutput dt
      | Option.none => s
    | _ => "N/A"

/-!
Claims.  Each claim of the specification gets exactly one theorem below
(plus, where needed, a witness instantiating its hypotheses, or a
counterexample refuting the claim as stated).
-/

/-- Claim C10: `format_price` applied to the numeric value 0 (or 0.0,
which is the same modelled number) returns the sentinel "Not Available"
rather than a formatted zero price, because a zero value is falsy and so
treated the same as an absent value. -/
theorem c10_format_price_zero_is_sentinel :
    format_price (.num 0) = "Not Available" ∧ format_price (.num 0) ≠ "₹0" :=
  ⟨by decide, by decide⟩

/-- Claim C5, the code's behaviour at the failing input: the docstring of
`format_datetime` promises "Mar-06, 2025 | 6:20 PM" (no leading zero on
the hour) but `strftime`'s `%I` zero-pads, so "2025-03-06 18:20" (matched
by the first pattern) renders as "Mar-06, 2025 | 06:20 PM". -/
theorem c5_format_datetime_pads_hour :
    format_datetime (.str "2025-03-06 18:20") = "Mar-06, 2025 | 06:20 PM"
  ∧ format_datetime (.str "2025-03-06 18:20") ≠ "Mar-06, 2025 | 6:20 PM" :=
  ⟨by decide, by decide⟩

/-- Claim C4, counterexample: `format_duration` maps the number 0 to
"N/A" (0 is falsy), not to "0m" as the claim states. -/
theorem c4_counterexample_zero :
    format_duration (.num 0) = "N/A" ∧ format_duration (.num 0) ≠ "0m" :=
  ⟨by decide, by decide⟩

/-- Claim C4 as amended: `format_duration` maps the number 0 to "N/A"
(falsy input is treated as missing; the string "0" still parses and gives
"0m"), 90 to "1h 30m", 120 to "2h", "N/A" and "" and `None` to "N/A", a
non-integer string to itself, and a positive integer `n` to "{h}h {m}m" /
"{h}h" / "{m}m" according to which of `h = n / 60` and `m = n % 60` are
non-zero. -/
theorem c4_amended_format_duration :
    format_duration (.num 0) = "N/A"
  ∧ format_duration (.str "0") = "0m"
  ∧ format_duration (.num 90) = "1h 30m"
  ∧ format_duration (.num 120) = "2h"
  ∧ format_duration (.str "N/A") = "N/A"
  ∧ format_duration (.str "") = "N/A"
  ∧ format_duration PyVal.none = "N/A"
  ∧ format_duration (.str "abc") = "abc"
  ∧ (∀ n : Int, 0 < n →
      format_duration (.num (n : ℚ)) =
        (if 0 < Int.fdiv n 60 ∧ 0 < Int.fmod n 60 then
          toString (Int.fdiv n 60) ++ "h " ++ toString (Int.fmod n 60) ++ "m"
        else if 0 < Int.fdiv n 60 then toString (Int.fdiv n 60) ++ "h"
        else toString (Int.fmod n 60) ++ "m")) := by
  refine ⟨by decide, by decide, by decide, by decide, by decide, by decide, by decide, by decide,
    fun n hn => ?_⟩
  have hq0 : ((n : ℚ) == 0) = false := by
    simp only [beq_eq_false_iff_ne, ne_eq, Int.cast_eq_zero]
    omega
  have hti : pyToInt (.num (n : ℚ)) = .ok n := by
    simp [pyToInt, ratTrunc, Rat.intCast_num, Rat.intCast_den]
  simp only [format_duration, pyFalsy, hq0, Bool.false_or]
  have hne : (PyVal.num (n : ℚ) == PyVal.str "N/A") = false := by
    simp [beq_eq_false_iff_ne]
  rw [hne]
  simp only [if_false, hti, gt_iff_lt, Bool.and_eq_true, decide_eq_true_eq]
  split_ifs with h1 h2 h3 <;> simp_all

/-- Claim C4 witness for the quantified clause, at `n = 90`. -/
theorem c4_amended_format_duration_witness :
    (0 : Int) < 90 ∧
      format_duration (.num ((90 : Int) : ℚ)) =
        (if 0 < Int.fdiv (90 : Int) 60 ∧ 0 < Int.fmod (90 : Int) 60 then
          toString (Int.fdiv (90 : Int) 60) ++ "h " ++ toString (Int.fmod (90 : Int) 60) ++ "m"
        else if 0 < Int.fdiv (90 : Int) 60 then toString (Int.fdiv (90 : Int) 60) ++ "h"
        else toString (Int.fmod (90 : Int) 60) ++ "m") :=
  ⟨by decide, c4_amended_format_duration.2.2.2.2.2.2.2.2 90 (by decide)⟩

/-- Claim C6, counterexample: for `max_len = 2` (below the ellipsis
length 3) the Python slice `text[:max_len-3]` counts from the end of the
string, so `truncate_text "abcd" 2` is "abc..." — not the empty prefix
followed by "..." that "the first max_len − 3 characters" describes, and
longer than `max_len`. -/
theorem c6_counterexample_small_max :
    truncate_text "abcd" 2 = "abc..." ∧ truncate_text "abcd" 2 ≠ "..." :=
  ⟨by decide, by decide⟩

/-- Claim C6 as amended: for every `max_len ≥ 3`, `truncate_text` returns
the empty string on empty input, the text unchanged when its length is at
most `max_len`, and otherwise the first `max_len − 3` characters followed
by "..."; in particular the 150-a example has length exactly 100 and ends
with "..." and "short" is returned unchanged.  For `max_len < 3` the
negative Python slice keeps `len(text) − (3 − max_len)` leading characters
instead. -/
theorem c6_amended_truncate :
    (∀ (text : String) (max_length : Int), 3 ≤ max_length →
      (text = "" → truncate_text text max_length = "")
      ∧ ((text.length : Int) ≤ max_length → truncate_text text max_length = text)
      ∧ (max_length < (text.length : Int) →
          truncate_text text max_length
            = String.mk (text.toList.take (max_length - 3).toNat) ++ "..."))
  ∧ truncate_text (String.mk (List.replicate 150 'a')) 100
      = String.mk (List.replicate 97 'a') ++ "..."
  ∧ (truncate_text (String.mk (List.replicate 150 'a')) 100).length = 100
  ∧ (truncate_text (String.mk (List.replicate 150 'a')) 100).toList.drop 97 = ['.', '.', '.']
  ∧ truncate_text "short" 100 = "short" := by
  refine ⟨fun text max_length h3 => ⟨?_, ?_, ?_⟩, by decide, by decide, by decide, by decide⟩
  · intro he
    simp [truncate_text, he]
  · intro hle
    unfold truncate_text
    split_ifs <;> simp_all
  · intro hgt
    have hne : text ≠ "" := by
      intro he
      rw [he] at hgt
      simp at hgt
      omega
    unfold truncate_text
    rw [if_neg hne, if_neg (by omega), pyTakePrefix, if_pos (by omega)]

/-- Claim C6 witness for the quantified clause, at
`text = "abcdefgh"`, `max_length = 5`. -/
theorem c6_amended_truncate_witness :
    (3 : Int) ≤ 5
  ∧ ("abcdefgh" = "" → truncate_text "abcdefgh" 5 = "")
  ∧ (((("abcdefgh" : String).length : Int) ≤ 5) → truncate_text "abcdefgh" 5 = "abcdefgh")
  ∧ ((5 : Int) < (("abcdefgh" : String).length : Int) →
      truncate_text "abcdefgh" 5
        = String.mk (("abcdefgh" : String).toList.take ((5 : Int) - 3).toNat) ++ "...") := by
  refine ⟨by decide, ?_⟩
  exact c6_amended_truncate.1 "abcdefgh" 5 (by decide)

/-- Claim C7: when the `best_flights` field of the raw response is absent
or is an empty list, `extract_best_flights` returns the empty list — a
valid no-flights outcome, not an error. -/
theorem c7_empty_or_absent_offers :
    ∀ (res : List (String × PyVal)) (limit : Nat),
      res.lookup "best_flights" = Option.none ∨
        res.lookup "best_flights" = some (.list []) →
      extract_best_flights (.dict res) limit = [] := by
  intro res limit h
  rcases h with h | h <;>
    simp [extract_best_flights, extract_core, pyGetAttr, h, pyFalsy]

/-- Claim C7 witness: a response without the field, and one with it
empty. -/
theorem c7_empty_or_absent_offers_witness :
    ([("q", PyVal.num 1)].lookup "best_flights" = Option.none ∨
        [("q", PyVal.num 1)].lookup "best_flights" = some (.list []))
  ∧ extract_best_flights (.dict [("q", PyVal.num 1)]) 3 = [] :=
  ⟨by decide, c7_empty_or_absent_offers [("q", PyVal.num 1)] 3 (by decide)⟩

/-- Claim C9: `validate_dates` rejects every pair with return before
departure, rejects return equal to departure (zero-day span), and accepts
whenever the return is at least one day after departure, the departure is
not before today and at most 365 days after today. -/
theorem c9_validate_dates :
    ∀ today departure_date return_date : Int,
      (return_date < departure_date →
        (validate_dates today departure_date return_date).1 = false)
      ∧ (return_date = departure_date →
        (validate_dates today departure_date return_date).1 = false)
      ∧ (departure_date + 1 ≤ return_date → today ≤ departure_date →
          departure_date ≤ today + 365 →
        (validate_dates today departure_date return_date).1 = true) := by
  intro today dep ret
  refine ⟨fun h => ?_, fun h => ?_, fun h1 h2 h3 => ?_⟩ <;>
    · unfold validate_dates
      split_ifs <;> first | rfl | (exfalso; omega)

/-- Claim C9 witness (today = 100): rejection at return < departure,
rejection at return = departure, acceptance at a one-day trip. -/
theorem c9_validate_dates_witness :
    ((105 : Int) < 106 → (validate_dates 100 106 105).1 = false)
  ∧ ((105 : Int) = 105 → (validate_dates 100 105 105).1 = false)
  ∧ ((validate_dates 100 105 106).1 = true) :=
  ⟨fun _ => (c9_validate_dates 100 106 105).1 (by decide),
   fun _ => (c9_validate_dates 100 105 105).2.1 rfl,
   (c9_validate_dates 100 105 106).2.2 (by decide) (by decide) (by decide)⟩

/-- Claim C1: for every raw search response whose offers list is the four
offers priced 500, 200, 800 and missing (in that order, with arbitrary
further fields), `extract_best_flights` with limit 2 returns exactly the
200-offer then the 500-offer: the candidates sort ascending by price, a
missing price is keyed `float("inf")` and sorts last, and the first
`limit` of the sorted order are kept. -/
theorem c1_sort_and_limit :
    ∀ (res e1 e2 e3 e4 : List (String × PyVal)),
      res.lookup "best_flights"
          = some (.list [.dict e1, .dict e2, .dict e3, .dict e4]) →
      e1.lookup "price" = some (.num 500) →
      e2.lookup "price" = some (.num 200) →
      e3.lookup "price" = some (.num 800) →
      e4.lookup "price" = Option.none →
      extract_best_flights (.dict res) 2 = [.dict e2, .dict e1] := by
  intro res e1 e2 e3 e4 hres h1 h2 h3 h4
  have d1 : (decide ((800 : ℚ) < 200)) = false := by decide
  have d2 : (decide ((200 : ℚ) < 500)) = true := by decide
  have d3 : (decide ((800 : ℚ) < 500)) = false := by decide
  simp [extract_best_flights, extract_core, pyGetAttr, hres, pyFalsy, sortOffers,
    mapME, keyOf, h1, h2, h3, h4, sortM, insertM, pyLtKey, pyLt, d1, d2, d3]

/-- Claim C1 witness: the concrete four-offer response. -/
theorem c1_sort_and_limit_witness :
    [("best_flights", PyVal.list
        [.dict [("price", PyVal.num 500), ("id", PyVal.str "a")],
         .dict [("price", PyVal.num 200), ("id", PyVal.str "b")],
         .dict [("price", PyVal.num 800), ("id", PyVal.str "c")],
         .dict [("id", PyVal.str "d")]])].lookup "best_flights"
      = some (PyVal.list
        [.dict [("price", PyVal.num 500), ("id", PyVal.str "a")],
         .dict [("price", PyVal.num 200), ("id", PyVal.str "b")],
         .dict [("price", PyVal.num 800), ("id", PyVal.str "c")],
         .dict [("id", PyVal.str "d")]])
  ∧ extract_best_flights
      (.dict [("best_flights", PyVal.list
        [.dict [("price", PyVal.num 500), ("id", PyVal.str "a")],
         .dict [("price", PyVal.num 200), ("id", PyVal.str "b")],
         .dict [("price", PyVal.num 800), ("id", PyVal.str "c")],
         .dict [("id", PyVal.str "d")]])]) 2
      = [.dict [("price", PyVal.num 200), ("id", PyVal.str "b")],
         .dict [("price", PyVal.num 500), ("id", PyVal.str "a")]] :=
  ⟨by decide,
   c1_sort_and_limit
     [("best_flights", PyVal.list
        [.dict [("price", PyVal.num 500), ("id", PyVal.str "a")],
         .dict [("price", PyVal.num 200), ("id", PyVal.str "b")],
         .dict [("price", PyVal.num 800), ("id", PyVal.str "c")],
         .dict [("id", PyVal.str "d")]])]
     [("price", PyVal.num 500), ("id", PyVal.str "a")]
     [("price", PyVal.num 200), ("id", PyVal.str "b")]
     [("price", PyVal.num 800), ("id", PyVal.str "c")]
     [("id", PyVal.str "d")]
     (by decide) (by decide) (by decide) (by decide) (by decide)⟩

/-- The sort key of one offer, as a total function (dict offers only reach
the sort with `keyOf` succeeding; the non-dict fallback value is never
used under the `goodOffer` hypotheses below). -/
def offerKey (o : PyVal) : SortKey :=
  match o with
  | .dict es =>
    match es.lookup "price" with
    | some v => .val v
    | Option.none => .inf
  | _ => .inf

/-- The numeric rank of a sort key: `float("inf")` is the top element,
a numeric price is itself (the fallback for non-numeric keys is unused
under the hypotheses below). -/
def krank : SortKey → WithTop ℚ
  | .inf => ⊤
  | .val (.num q) => (q : WithTop ℚ)
  | .val _ => ⊤

/-- A key Python can order against the other keys of a numeric-or-missing
offer list: `float("inf")` or a number. -/
def rankedKey (k : SortKey) : Prop :=
  k = SortKey.inf ∨ ∃ q, k = SortKey.val (.num q)

/-- An offer that is a dictionary whose price is absent or numeric. -/
def goodOffer (o : PyVal) : Prop :=
  ∃ es, o = PyVal.dict es ∧
    (es.lookup "price" = Option.none ∨ ∃ q, es.lookup "price" = some (.num q))

/-- Ascending order of offers by their price key, missing prices ranked
top. -/
def offerLe (a b : PyVal) : Prop := krank (offerKey a) ≤ krank (offerKey b)

instance : DecidableRel offerLe := fun a b =>
  inferInstanceAs (Decidable (krank (offerKey a) ≤ krank (offerKey b)))

instance : IsTotal PyVal offerLe := ⟨fun _ _ => le_total _ _⟩

instance : IsTrans PyVal offerLe := ⟨fun _ _ _ hab hbc => le_trans hab hbc⟩

/-- The corresponding order on keyed pairs. -/
def keyedLe (a b : SortKey × PyVal) : Prop := krank a.1 ≤ krank b.1

instance : DecidableRel keyedLe := fun a b =>
  inferInstanceAs (Decidable (krank a.1 ≤ krank b.1))

theorem keyOf_dict (es : List (String × PyVal)) :
    keyOf (.dict es) = .ok (offerKey (.dict es)) := by
  simp only [keyOf, offerKey]
  cases es.lookup "price" <;> rfl

theorem offerKey_ranked (o : PyVal) (h : goodOffer o) : rankedKey (offerKey o) := by
  rcases h with ⟨es, rfl, h | ⟨q, h⟩⟩
  · exact Or.inl (by simp [offerKey, h])
  · exact Or.inr ⟨q, by simp [offerKey, h]⟩

theorem pyLtKey_ranked_true {k1 k2 : SortKey} (h1 : rankedKey k1) (h2 : rankedKey k2)
    (hlt : krank k1 < krank k2) : pyLtKey k1 k2 = .ok true := by
  rcases h1 with rfl | ⟨q1, rfl⟩ <;> rcases h2 with rfl | ⟨q2, rfl⟩
  · exact absurd hlt (lt_irrefl _)
  · exact absurd hlt (by simp [krank])
  · rfl
  · simp only [pyLtKey, pyLt, Except.ok.injEq, decide_eq_true_eq]
    exact_mod_cast (by simpa [krank] using hlt : ((q1 : WithTop ℚ)) < (q2 : WithTop ℚ))

theorem pyLtKey_ranked_false {k1 k2 : SortKey} (h1 : rankedKey k1) (h2 : rankedKey k2)
    (hnlt : ¬ krank k1 < krank k2) : pyLtKey k1 k2 = .ok false := by
  rcases h1 with rfl | ⟨q1, rfl⟩ <;> rcases h2 with rfl | ⟨q2, rfl⟩
  · rfl
  · rfl
  · exact absurd (by simp [krank] : krank (SortKey.val (.num q1)) < krank SortKey.inf) hnlt
  · simp only [pyLtKey, pyLt, Except.ok.injEq, decide_eq_false_iff_not]
    intro hc
    exact hnlt (by simpa [krank] using (WithTop.coe_lt_coe.mpr hc))

theorem insertM_ranked :
    ∀ (l : List (SortKey × PyVal)) (a : SortKey × PyVal),
      rankedKey a.1 → (∀ p ∈ l, rankedKey p.1) →
      insertM a l = .ok (List.orderedInsert keyedLe a l) := by
  intro l
  induction l with
  | nil => intro a _ _; rfl
  | cons b bs ih =>
    intro a ha hl
    have hb : rankedKey b.1 := hl b (List.mem_cons_self b bs)
    by_cases hlt : krank b.1 < krank a.1
    · rw [insertM, pyLtKey_ranked_true hb ha hlt, bindE_ok, if_pos rfl,
        ih a ha (fun p hp => hl p (List.mem_cons_of_mem _ hp)), bindE_ok,
        List.orderedInsert, if_neg (by exact not_le.mpr hlt)]
    · rw [insertM, pyLtKey_ranked_false hb ha hlt, bindE_ok,
        if_neg (by simp), List.orderedInsert, if_pos (by exact not_lt.mp hlt)]

theorem sortM_ranked :
    ∀ (l : List (SortKey × PyVal)), (∀ p ∈ l, rankedKey p.1) →
      sortM l = .ok (List.insertionSort keyedLe l) := by
  intro l
  induction l with
  | nil => intro _; rfl
  | cons x xs ih =>
    intro hl
    rw [sortM, ih (fun p hp => hl p (List.mem_cons_of_mem _ hp)), bindE_ok,
      List.insertionSort]
    exact insertM_ranked _ x (hl x (List.mem_cons_self _ _))
      (fun p hp => hl p (List.mem_cons_of_mem _ ((List.mem_insertionSort keyedLe).mp hp)))

theorem mapME_keys :
    ∀ (offers : List PyVal), (∀ o ∈ offers, ∃ es, o = PyVal.dict es) →
      mapME (fun o => bindE (keyOf o) (fun k => .ok (k, o))) offers
        = .ok (offers.map (fun o => (offerKey o, o))) := by
  intro offers
  induction offers with
  | nil => intro _; rfl
  | cons o os ih =>
    intro h
    obtain ⟨es, rfl⟩ := h o (List.mem_cons_self o os)
    rw [mapME, keyOf_dict, bindE_ok, bindE_ok,
      ih (fun p hp => h p (List.mem_cons_of_mem _ hp)), bindE_ok, List.map]

theorem sortOffers_good (offers : List PyVal) (h : ∀ o ∈ offers, goodOffer o) :
    sortOffers offers = .ok (List.insertionSort offerLe offers) := by
  have hdicts : ∀ o ∈ offers, ∃ es, o = PyVal.dict es := fun o ho =>
    ⟨(h o ho).choose, (h o ho).choose_spec.1⟩
  have hranked : ∀ p ∈ offers.map (fun o => (offerKey o, o)), rankedKey p.1 := by
    intro p hp
    obtain ⟨o, ho, rfl⟩ := List.mem_map.mp hp
    exact offerKey_ranked o (h o ho)
  rw [sortOffers, mapME_keys offers hdicts, bindE_ok, sortM_ranked _ hranked, bindE_ok]
  have hmap : (List.insertionSort offerLe offers).map (fun o => (offerKey o, o))
      = List.insertionSort keyedLe (offers.map (fun o => (offerKey o, o))) :=
    List.map_insertionSort offerLe keyedLe (fun o => (offerKey o, o)) offers
      (fun _ _ _ _ => Iff.rfl)
  rw [← hmap, List.map_map]
  have : (Prod.snd ∘ fun o => (offerKey o, o)) = id (α := PyVal) := rfl
  rw [this, List.map_id]

/-- Claim C2, counterexample: with one offer priced 100 (a number) and one
offer priced "abc" (a present but non-numeric string), the sort key
comparison raises `TypeError` (a string is not orderable against a number),
the `except` catches it and `extract_best_flights` returns `[]` — the other
offers are not returned at all, contradicting the claim that the sort does
not fail and sorts the unparseable price last. -/
theorem c2_counterexample_unparseable_price :
    extract_best_flights
        (.dict [("best_flights",
          .list [.dict [("price", .num 100)], .dict [("price", .str "abc")]])]) 3 = []
  ∧ extract_best_flights
        (.dict [("best_flights",
          .list [.dict [("price", .num 100)], .dict [("price", .str "abc")]])]) 3
      ≠ [.dict [("price", .num 100)], .dict [("price", .str "abc")]] :=
  ⟨by decide, by decide⟩

/-- Claim C2 as amended: offers with a *missing* price are keyed
`float("inf")` and sort last; when every offer's price is numeric or
missing, `extract_best_flights` returns the first `limit` offers of the
ascending stable sort (so the result is sorted, with missing-price offers
after all priced ones) and no error escapes.  But an offer whose price is
present and not a number makes the key comparison raise `TypeError`
against a numeric key; the `except` boundary turns this into the empty
result instead of returning the other offers. -/
theorem c2_amended_sort_behaviour :
    (∀ (res : List (String × PyVal)) (offers : List PyVal) (limit : Nat),
      res.lookup "best_flights" = some (.list offers) →
      (∀ o ∈ offers, goodOffer o) →
      extract_best_flights (.dict res) limit
          = (List.insertionSort offerLe offers).take limit
        ∧ List.Sorted offerLe (extract_best_flights (.dict res) limit))
  ∧ extract_best_flights
      (.dict [("best_flights",
        .list [.dict [("price", .num 100)], .dict [("price", .str "abc")]])]) 3 = [] := by
  constructor
  · intro res offers limit hres hgood
    have hmain : extract_best_flights (.dict res) limit
        = (List.insertionSort offerLe offers).take limit := by
      rcases offers with _ | ⟨o, os⟩
      · simp [extract_best_flights, extract_core, pyGetAttr, hres, pyFalsy,
          List.insertionSort]
      · simp [extract_best_flights, extract_core, pyGetAttr, hres, pyFalsy,
          sortOffers_good _ hgood]
    refine ⟨hmain, ?_⟩
    rw [hmain]
    exact List.Pairwise.sublist (List.take_sublist _ _)
      (List.sorted_insertionSort offerLe offers)
  · decide

/-- Claim C2 witness for the quantified clause: three good offers (500,
200, missing), limit 2. -/
theorem c2_amended_sort_behaviour_witness :
    ([("best_flights", PyVal.list
        [.dict [("price", PyVal.num 500)], .dict [("price", PyVal.num 200)],
         .dict [("note", PyVal.str "no price")]])].lookup "best_flights"
      = some (PyVal.list
        [.dict [("price", PyVal.num 500)], .dict [("price", PyVal.num 200)],
         .dict [("note", PyVal.str "no price")]]))
  ∧ extract_best_flights
      (.dict [("best_flights", PyVal.list
        [.dict [("price", PyVal.num 500)], .dict [("price", PyVal.num 200)],
         .dict [("note", PyVal.str "no price")]])]) 2
      = (List.insertionSort offerLe
          [.dict [("price", PyVal.num 500)], .dict [("price", PyVal.num 200)],
           .dict [("note", PyVal.str "no price")]]).take 2
  ∧ List.Sorted offerLe
      (extract_best_flights
        (.dict [("best_flights", PyVal.list
          [.dict [("price", PyVal.num 500)], .dict [("price", PyVal.num 200)],
           .dict [("note", PyVal.str "no price")]])]) 2) := by
  have hgood : ∀ o ∈ ([.dict [("price", PyVal.num 500)], .dict [("price", PyVal.num 200)],
      .dict [("note", PyVal.str "no price")]] : List PyVal), goodOffer o := by
    intro o ho
    simp only [List.mem_cons, List.not_mem_nil, or_false] at ho
    rcases ho with rfl | rfl | rfl
    · exact ⟨_, rfl, Or.inr ⟨500, rfl⟩⟩
    · exact ⟨_, rfl, Or.inr ⟨200, rfl⟩⟩
    · exact ⟨_, rfl, Or.inl rfl⟩
  have happ := c2_amended_sort_behaviour.1
    [("best_flights", PyVal.list
      [.dict [("price", PyVal.num 500)], .dict [("price", PyVal.num 200)],
       .dict [("note", PyVal.str "no price")]])]
    [.dict [("price", PyVal.num 500)], .dict [("price", PyVal.num 200)],
     .dict [("note", PyVal.str "no price")]]
    2 (by decide) hgood
  exact ⟨by decide, happ.1, happ.2⟩

/-- `extract_best_flights` never returns more than `limit` offers: the
caught-error branch returns `[]` and the success branch takes `limit`. -/
theorem extract_length_le (fd : PyVal) (limit : Nat) :
    (extract_best_flights fd limit).length ≤ limit := by
  unfold extract_best_flights
  cases hc : extract_core fd limit with
  | error e => simp
  | ok l =>
    unfold extract_core at hc
    cases hg : pyGetAttr fd "best_flights" (.list []) with
    | error e => rw [hg] at hc; simp at hc
    | ok best =>
      rw [hg, bindE_ok] at hc
      by_cases hf : pyFalsy best
      · rw [if_pos hf] at hc
        cases hc
        simp
      · rw [if_neg hf] at hc
        cases best with
        | list offers =>
          dsimp only at hc
          cases hs : sortOffers offers with
          | error e => rw [hs] at hc; simp at hc
          | ok s =>
            rw [hs, bindE_ok] at hc
            cases hc
            simp [List.length_take]
        | none => dsimp only at hc; simp at hc
        | num q => dsimp only at hc; simp at hc
        | str s => dsimp only at hc; simp at hc
        | dict es => dsimp only at hc; simp at hc

/-- Claim C3: for every provider response (including a raised provider
error and arbitrarily malformed data), `search_and_extract` returns a
plain list of at most `limit` records — in the worst case empty — and
every returned record is the (truthy) detail projection of one offer
retained by `extract_best_flights`; an offer whose projection failed is
skipped, never aborting the batch. -/
theorem c3_search_and_extract_projection :
    ∀ (resp : ProviderResponse) (limit : Nat),
      (search_and_extract resp limit).length ≤ limit
      ∧ (∀ d ∈ search_and_extract resp limit,
          ∃ offer ∈ extract_best_flights (search_flights resp) limit,
            pyTruthy (get_flight_details offer) = true ∧ get_flight_details offer = d) := by
  intro resp limit
  constructor
  · calc (search_and_extract resp limit).length
        ≤ (extract_best_flights (search_flights resp) limit).length :=
          List.length_filterMap_le _ _
      _ ≤ limit := extract_length_le _ _
  · intro d hd
    unfold search_and_extract at hd
    obtain ⟨offer, hoff, hsome⟩ := List.mem_filterMap.mp hd
    refine ⟨offer, hoff, ?_⟩
    dsimp only at hsome
    by_cases ht : pyTruthy (get_flight_details offer) = true
    · refine ⟨ht, ?_⟩
      rw [if_pos ht] at hsome
      exact Option.some.inj hsome
    · rw [if_neg ht] at hsome
      exact absurd hsome (by simp)

/-- Claim C3 witness: one well-formed offer, whose projection is the
single returned record. -/
theorem c3_search_and_extract_projection_witness :
    PyVal.dict [("airline", .str "AI"), ("airline_logo", .str ""), ("price", .num 200),
        ("total_duration", .str "N/A"),
        ("departure_time", .str "2025-03-06 18:20"), ("departure_airport", .str "DEL"),
        ("departure_airport_name", .str "Delhi"),
        ("arrival_time", .str "2025-03-06 21:20"), ("arrival_airport", .str "BOM"),
        ("arrival_airport_name", .str "Mumbai"),
        ("layovers", .num 0), ("departure_token", .str ""), ("booking_token", .str "")]
      ∈ search_and_extract (.success (.dict [("best_flights", .list
          [.dict [("price", .num 200),
            ("flights", .list [.dict [("airline", .str "AI"),
              ("departure_airport", .dict [("time", .str "2025-03-06 18:20"),
                ("id", .str "DEL"), ("name", .str "Delhi")]),
              ("arrival_airport", .dict [("time", .str "2025-03-06 21:20"),
                ("id", .str "BOM"), ("name", .str "Mumbai")])]])]])])) 3
  ∧ ∃ offer ∈ extract_best_flights
        (search_flights (.success (.dict [("best_flights", .list
          [.dict [("price", .num 200),
            ("flights", .list [.dict [("airline", .str "AI"),
              ("departure_airport", .dict [("time", .str "2025-03-06 18:20"),
                ("id", .str "DEL"), ("name", .str "Delhi")]),
              ("arrival_airport", .dict [("time", .str "2025-03-06 21:20"),
                ("id", .str "BOM"), ("name", .str "Mumbai")])]])]])]))) 3,
      pyTruthy (get_flight_details offer) = true
      ∧ get_flight_details offer
        = .dict [("airline", .str "AI"), ("airline_logo", .str ""), ("price", .num 200),
            ("total_duration", .str "N/A"),
            ("departure_time", .str "2025-03-06 18:20"), ("departure_airport", .str "DEL"),
            ("departure_airport_name", .str "Delhi"),
            ("arrival_time", .str "2025-03-06 21:20"), ("arrival_airport", .str "BOM"),
            ("arrival_airport_name", .str "Mumbai"),
            ("layovers", .num 0), ("departure_token", .str ""), ("booking_token", .str "")] :=
  ⟨by decide,
   (c3_search_and_extract_projection (.success (.dict [("best_flights", .list
      [.dict [("price", .num 200),
        ("flights", .list [.dict [("airline", .str "AI"),
          ("departure_airport", .dict [("time", .str "2025-03-06 18:20"),
            ("id", .str "DEL"), ("name", .str "Delhi")]),
          ("arrival_airport", .dict [("time", .str "2025-03-06 21:20"),
            ("id", .str "BOM"), ("name", .str "Mumbai")])]])]])])) 3).2
     (.dict [("airline", .str "AI"), ("airline_logo", .str ""), ("price", .num 200),
        ("total_duration", .str "N/A"),
        ("departure_time", .str "2025-03-06 18:20"), ("departure_airport", .str "DEL"),
        ("departure_airport_name", .str "Delhi"),
        ("arrival_time", .str "2025-03-06 21:20"), ("arrival_airport", .str "BOM"),
        ("arrival_airport_name", .str "Mumbai"),
        ("layovers", .num 0), ("departure_token", .str ""), ("booking_token", .str "")])
     (by decide)⟩

/-- Claim C8: `get_booking_link` returns the placeholder "#" when the
flight carries no continuation token (absent or empty), when the follow-up
provider call raises, and when the follow-up response omits the booking
token; when the follow-up succeeds with a truthy booking token it returns
the fixed-template URL embedding that token; and the follow-up call
depends on the provider only through the parameter dictionary that reuses
the same trip parameters (upper-cased origin and destination, both dates)
plus the continuation token. -/
theorem c8_get_booking_link :
    (∀ (provider : List (String × PyVal) → ProviderResponse) (api_key : String)
        (fes : List (String × PyVal)) (src dst dep ret : String),
      (fes.lookup "departure_token" = Option.none ∨
        fes.lookup "departure_token" = some (.str "")) →
      get_booking_link provider api_key (.dict fes) src dst dep ret = "#")
  ∧ (∀ (provider : List (String × PyVal) → ProviderResponse) (api_key : String)
        (fes : List (String × PyVal)) (tok : PyVal) (src dst dep ret : String),
      fes.lookup "departure_token" = some tok → pyFalsy tok = false →
      provider (bookingParams api_key src dst dep ret tok) = .failure →
      get_booking_link provider api_key (.dict fes) src dst dep ret = "#")
  ∧ (∀ (provider : List (String × PyVal) → ProviderResponse) (api_key : String)
        (fes : List (String × PyVal)) (tok : PyVal) (src dst dep ret : String)
        (res ffes : List (String × PyVal)) (rest : List PyVal),
      fes.lookup "departure_token" = some tok → pyFalsy tok = false →
      provider (bookingParams api_key src dst dep ret tok) = .success (.dict res) →
      res.lookup "best_flights" = some (.list (PyVal.dict ffes :: rest)) →
      (ffes.lookup "booking_token" = Option.none ∨
        ffes.lookup "booking_token" = some (.str "")) →
      get_booking_link provider api_key (.dict fes) src dst dep ret = "#")
  ∧ (∀ (provider : List (String × PyVal) → ProviderResponse) (api_key : String)
        (fes : List (String × PyVal)) (tok : PyVal) (src dst dep ret : String)
        (res ffes : List (String × PyVal)) (rest : List PyVal) (b : String),
      fes.lookup "departure_token" = some tok → pyFalsy tok = false →
      provider (bookingParams api_key src dst dep ret tok) = .success (.dict res) →
      res.lookup "best_flights" = some (.list (PyVal.dict ffes :: rest)) →
      ffes.lookup "booking_token" = some (.str b) → b ≠ "" →
      get_booking_link provider api_key (.dict fes) src dst dep ret
        = "https://www.google.com/travel/flights?tfs=" ++ b)
  ∧ (∀ (p1 p2 : List (String × PyVal) → ProviderResponse) (api_key : String)
        (fes : List (String × PyVal)) (tok : PyVal) (src dst dep ret : String),
      fes.lookup "departure_token" = some tok →
      p1 (bookingParams api_key src dst dep ret tok)
        = p2 (bookingParams api_key src dst dep ret tok) →
      get_booking_link p1 api_key (.dict fes) src dst dep ret
        = get_booking_link p2 api_key (.dict fes) src dst dep ret) := by
  refine ⟨?_, ?_, ?_, ?_, ?_⟩
  · intro provider api_key fes src dst dep ret h
    rcases h with h | h <;>
      simp [get_booking_link, get_booking_link_core, pyGetAttr, h, pyFalsy]
  · intro provider api_key fes tok src dst dep ret hlook hfal hfail
    simp [get_booking_link, get_booking_link_core, pyGetAttr, hlook, hfal, hfail]
  · intro provider api_key fes tok src dst dep ret res ffes rest hlook hfal hsucc hbest hbt
    simp only [get_booking_link, get_booking_link_core, pyGetAttr, hlook,
      Option.getD_some, bindE_ok, hfal]
    rcases hbt with hbt | hbt <;>
      simp [hsucc, hbest, pyFalsy, pyLen, pyIndexFirst, hbt]
  · intro provider api_key fes tok src dst dep ret res ffes rest b hlook hfal hsucc hbest hbt hb
    simp only [get_booking_link, get_booking_link_core, pyGetAttr, hlook,
      Option.getD_some, bindE_ok, hfal]
    simp [hsucc, hbest, pyFalsy, pyLen, pyIndexFirst, hbt, hb, pyStr]
  · intro p1 p2 api_key fes tok src dst dep ret hlook hpp
    simp only [get_booking_link, get_booking_link_core, pyGetAttr, hlook,
      Option.getD_some, bindE_ok]
    by_cases hf : pyFalsy tok
    · rw [if_pos hf, if_pos hf]
    · rw [if_neg hf, if_neg hf, hpp]

/-- Claim C8 witness: a flight without token gives "#"; with a token, a
failing follow-up gives "#", a follow-up without booking token gives "#",
a successful follow-up gives the template URL; and two providers agreeing
on the follow-up parameters give the same link. -/
theorem c8_get_booking_link_witness :
    get_booking_link (fun _ => .failure) "k" (.dict [("price", PyVal.num 1)])
        "del" "bom" "2025-03-06" "2025-03-10" = "#"
  ∧ get_booking_link (fun _ => .failure) "k" (.dict [("departure_token", PyVal.str "T")])
        "del" "bom" "2025-03-06" "2025-03-10" = "#"
  ∧ get_booking_link
        (fun _ => .success (.dict [("best_flights", PyVal.list [.dict [("x", PyVal.num 1)]])]))
        "k" (.dict [("departure_token", PyVal.str "T")])
        "del" "bom" "2025-03-06" "2025-03-10" = "#"
  ∧ get_booking_link
        (fun _ => .success (.dict [("best_flights",
          PyVal.list [.dict [("booking_token", PyVal.str "BT")]])]))
        "k" (.dict [("departure_token", PyVal.str "T")])
        "del" "bom" "2025-03-06" "2025-03-10"
      = "https://www.google.com/travel/flights?tfs=" ++ "BT"
  ∧ get_booking_link (fun _ => .failure) "k" (.dict [("departure_token", PyVal.str "T")])
        "del" "bom" "2025-03-06" "2025-03-10"
      = get_booking_link (fun _ => .failure) "k" (.dict [("departure_token", PyVal.str "T")])
        "del" "bom" "2025-03-06" "2025-03-10" :=
  ⟨c8_get_booking_link.1 (fun _ => .failure) "k" [("price", PyVal.num 1)]
      "del" "bom" "2025-03-06" "2025-03-10" (Or.inl (by decide)),
   c8_get_booking_link.2.1 (fun _ => .failure) "k" [("departure_token", PyVal.str "T")]
      (PyVal.str "T") "del" "bom" "2025-03-06" "2025-03-10" (by decide) (by decide) rfl,
   c8_get_booking_link.2.2.1
      (fun _ => .success (.dict [("best_flights", PyVal.list [.dict [("x", PyVal.num 1)]])]))
      "k" [("departure_token", PyVal.str "T")] (PyVal.str "T")
      "del" "bom" "2025-03-06" "2025-03-10"
      [("best_flights", PyVal.list [.dict [("x", PyVal.num 1)]])] [("x", PyVal.num 1)] []
      (by decide) (by decide) rfl (by decide) (Or.inl (by decide)),
   c8_get_booking_link.2.2.2.1
      (fun _ => .success (.dict [("best_flights",
        PyVal.list [.dict [("booking_token", PyVal.str "BT")]])]))
      "k" [("departure_token", PyVal.str "T")] (PyVal.str "T")
      "del" "bom" "2025-03-06" "2025-03-10"
      [("best_flights", PyVal.list [.dict [("booking_token", PyVal.str "BT")]])]
      [("booking_token", PyVal.str "BT")] [] "BT"
      (by decide) (by decide) rfl (by decide) (by decide) (by decide),
   c8_get_booking_link.2.2.2.2 (fun _ => .failure) (fun _ => .failure) "k"
      [("departure_token", PyVal.str "T")] (PyVal.str "T")
      "del" "bom" "2025-03-06" "2025-03-10" (by decide) rfl⟩
